import Mathlib

/-!
Shallow embedding of the py-online-cinema backend (accounts router, movies
router, security dependency and token-cleanup task) together with proofs of
the behavioural properties claimed by its specification.

Conventions of the embedding:
* database tables are lists of rows; `select ... .first()` is `List.find?`,
  `delete ... where` is `List.filter` with the negated condition;
* machine time is an `Int` count of seconds since the epoch in UTC;
* a stored datetime column is either timezone-aware (an absolute instant) or
  naive; `replace(tzinfo=timezone.utc)` reads a naive value's clock fields as
  UTC, so a naive value is represented by the instant those clock fields
  denote when read as UTC;
* each HTTP handler is a pure function from the database state and its inputs
  to the new database state and the response (success body or HTTP error).
-/

namespace OnlineCinema

/-- Stored datetime column value: timezone-aware or naive, as in the rows the
routers read back.  A naive value carries the instant its clock fields denote
when interpreted as UTC, which is exactly how the code normalizes it. -/
inductive StoredDateTime where
  | aware (instant : Int)
  | naive (clockFieldsAsUtc : Int)
  deriving DecidableEq, Repr

/-- Embedding of the normalization pattern used by every expiry check in the
accounts router: `if expires_at.tzinfo is None: expires_at =
expires_at.replace(tzinfo=timezone.utc)`. -/
def normalizeToUtc : StoredDateTime → Int
  | .aware instant => instant
  | .naive clockFieldsAsUtc => clockFieldsAsUtc

/-- Row of the `users` table (fields of `UserModel` used by the routers). -/
structure User where
  id : Int
  email : String
  hashedPassword : String
  isActive : Bool
  groupId : Int
  deriving DecidableEq, Repr

/-- Modelled from the spec: `UserModel.verify_password` lives in the accounts
model file that is referenced but not supplied; the spec describes "hashed
password storage with a verification operation".  Hashing is abstracted away,
so verification is equality of the supplied raw password with the stored
credential. -/
def User.verify_password (u : User) (raw : String) : Bool :=
  u.hashedPassword == raw

/-- Row shape shared by the `activation_tokens`, `password_reset_tokens` and
`refresh_tokens` tables: id, owning user id, opaque token string, expiry. -/
structure TokenRow where
  id : Int
  userId : Int
  token : String
  expiresAt : StoredDateTime
  deriving DecidableEq, Repr

/-- The account-related database state: users plus the three token tables. -/
structure AccountsDB where
  users : List User
  activationTokens : List TokenRow
  passwordResetTokens : List TokenRow
  refreshTokens : List TokenRow
  deriving DecidableEq, Repr

/-- Outcome of a handler: a success body or an `HTTPException(status, detail)`. -/
inductive Response (α : Type) where
  | ok (body : α)
  | error (statusCode : Nat) (detail : String)
  deriving DecidableEq, Repr

/-- Modelled from the spec: `JWTAuthManagerInterface.create_access_token`
(the security manager implementation is referenced but not supplied).  The
spec says it returns "a short-lived signed token embedding at least a user
identifier claim"; the embedding keeps exactly that claim. -/
structure AccessToken where
  user_id : Int
  deriving DecidableEq, Repr

/-- Modelled from the spec: issuing an access token for the claims dict
`\x7b"user_id": id\x7d` that both `login_user` and `refresh_access_token` pass. -/
def create_access_token (userId : Int) : AccessToken :=
  { user_id := userId }

/-- Modelled from the spec: `create_refresh_token` returns a signed string
"embedding the user identifier"; the embedding renders it as a string tagged
with the user id.  Its claims re-enter `refresh_access_token` through the
decode oracle, so only the persisted string value matters here. -/
def create_refresh_token (userId : Int) : String :=
  "refresh-token-for-user-" ++ toString userId

/-- Lookup of a claim in a decoded JWT payload (`payload.get(key)`). -/
def getClaim (claims : List (String × Int)) (key : String) : Option Int :=
  (claims.find? (fun kv => kv.1 == key)).map (fun kv => kv.2)

/-- Embedding of `POST /activate/` (`activate_user` in the accounts router).
Looks up the user by email, rejects absent or already-active users, looks up
the activation token row by user id, rejects a missing or mismatched token
without touching the database, deletes an expired token before rejecting, and
on success marks the user active and deletes the token. -/
def activate_user (db : AccountsDB) (now : Int) (email token : String) :
    AccountsDB × Response String :=
  match db.users.find? (fun u => u.email == email) with
  | none => (db, .error 400 "Invalid or expired activation token.")
  | some user =>
    if user.isActive then
      (db, .error 400 "User account is already active.")
    else
      match db.activationTokens.find? (fun t => t.userId == user.id) with
      | none => (db, .error 400 "Invalid or expired activation token.")
      | some tokenRecord =>
        if tokenRecord.token ≠ token then
          (db, .error 400 "Invalid or expired activation token.")
        else if normalizeToUtc tokenRecord.expiresAt ≤ now then
          ({ db with activationTokens :=
               db.activationTokens.filter (fun t => t.id ≠ tokenRecord.id) },
           .error 400 "Invalid or expired activation token.")
        else
          ({ db with
               users := db.users.map (fun u =>
                 if u.id = user.id then { u with isActive := true } else u),
               activationTokens :=
                 db.activationTokens.filter (fun t => t.id ≠ tokenRecord.id) },
           .ok "User account activated successfully.")

/-- Success body of `POST /login/` (`LoginResponseSchema`). -/
structure LoginBody where
  access_token : AccessToken
  refresh_token : String
  token_type : String
  deriving DecidableEq, Repr

/-- Embedding of `POST /login/` (`login_user`).  `not user or not
user.verify_password(...)` yields the same 401 detail for an unknown email
and for a wrong password; an inactive user with correct credentials gets 403;
on success a refresh-token row expiring `loginTimeDays` days from now is
persisted and both tokens are returned with token type "bearer".
`nextRowId` stands for the id the database assigns to the inserted row. -/
def login_user (db : AccountsDB) (now : Int) (loginTimeDays : Int)
    (nextRowId : Int) (email password : String) :
    AccountsDB × Response LoginBody :=
  match db.users.find? (fun u => u.email == email) with
  | none => (db, .error 401 "Invalid email or password.")
  | some user =>
    if !user.verify_password password then
      (db, .error 401 "Invalid email or password.")
    else if !user.isActive then
      (db, .error 403 "User account is not activated.")
    else
      let accessToken := create_access_token user.id
      let refreshToken := create_refresh_token user.id
      ({ db with refreshTokens := db.refreshTokens ++
          [{ id := nextRowId, userId := user.id, token := refreshToken,
             expiresAt := .aware (now + loginTimeDays * 86400) }] },
       .ok { access_token := accessToken, refresh_token := refreshToken,
             token_type := "bearer" })

/-- Embedding of `POST /logout/` (`logout_user`).  `verifyOk` is the outcome
of `jwt_manager.verify_refresh_token_or_raise` (true when it does not raise a
security error); on failure the handler returns success without touching the
database, otherwise it deletes every refresh-token row matching the supplied
token value and returns the same success message. -/
def logout_user (db : AccountsDB) (refreshToken : String) (verifyOk : Bool) :
    AccountsDB × Response String :=
  if !verifyOk then
    (db, .ok "Logged out.")
  else
    ({ db with refreshTokens :=
         db.refreshTokens.filter (fun t => t.token ≠ refreshToken) },
     .ok "Logged out.")

/-- Outcome of `POST /refresh/`.  `ok` is the declared
`RefreshTokenResponseSchema` body; `noBodyReturned` records that the handler
ran to the end of its body (after computing the new access token) without a
`return` statement, so no response body is produced. -/
inductive RefreshOutcome where
  | ok (body : AccessToken)
  | httpError (statusCode : Nat) (detail : String)
  | noBodyReturned (computedAccessToken : AccessToken)
  deriving DecidableEq, Repr

/-- Embedding of `POST /refresh/` (`refresh_access_token`).  `decoded` is the
outcome of `jwt_manager.decode_refresh_token` on the supplied token string
(claims dict, or the security error's message).  Decode failure is a 400; a
missing persisted row is a 401; a missing or inactive user for the embedded
`user_id` claim is a 401; an expired persisted row is deleted and reported
with a 401; otherwise the handler computes a fresh access token for the user
and falls off the end of the function without returning it. -/
def refresh_access_token (db : AccountsDB) (now : Int) (refreshToken : String)
    (decoded : Except String (List (String × Int))) :
    AccountsDB × RefreshOutcome :=
  match decoded with
  | .error e => (db, .httpError 400 e)
  | .ok tokenData =>
    match db.refreshTokens.find? (fun t => t.token == refreshToken) with
    | none => (db, .httpError 401 "Refresh token not found.")
    | some rtRecord =>
      let userLookup : Option User := match getClaim tokenData "user_id" with
        | none => none
        | some uid => db.users.find? (fun u => u.id == uid)
      match userLookup with
      | none => (db, .httpError 401 "User not found or inactive.")
      | some user =>
        if !user.isActive then
          (db, .httpError 401 "User not found or inactive.")
        else if normalizeToUtc rtRecord.expiresAt ≤ now then
          ({ db with refreshTokens :=
               db.refreshTokens.filter (fun t => t.id ≠ rtRecord.id) },
           .httpError 401 "Refresh token expired.")
        else
          (db, .noBodyReturned (create_access_token user.id))

/-- Expiry test used by the cleanup task: `model.expires_at <= now`. -/
def isExpiredAt (now : Int) (t : TokenRow) : Bool :=
  decide (normalizeToUtc t.expiresAt ≤ now)

/-- Embedding of `tasks.cleanup.cleanup_expired_tokens`: for each of the three
token tables delete every row whose expiry is at or before `now`, accumulate
the row counts, commit once, and return the total. -/
def cleanup_expired_tokens (db : AccountsDB) (now : Int) : AccountsDB × Nat :=
  let deletedActivation := db.activationTokens.countP (isExpiredAt now)
  let deletedReset := db.passwordResetTokens.countP (isExpiredAt now)
  let deletedRefresh := db.refreshTokens.countP (isExpiredAt now)
  ({ db with
       activationTokens := db.activationTokens.filter (fun t => !isExpiredAt now t),
       passwordResetTokens := db.passwordResetTokens.filter (fun t => !isExpiredAt now t),
       refreshTokens := db.refreshTokens.filter (fun t => !isExpiredAt now t) },
   deletedActivation + deletedReset + deletedRefresh)

/-- Bearer token as seen by the security dependency.  `missing` means no
usable `Authorization: Bearer` header reached the handler (the OAuth2 bearer
scheme rejects the request itself); `malformed` covers every string the JWT
decoder rejects regardless of key (bad structure, bad signature encoding,
failed registered-claim validation); `signed` is a well-formed token signed
with the given secret and algorithm and carrying the given integer claims. -/
inductive BearerToken where
  | missing
  | malformed (raw : String)
  | signed (secret : String) (alg : String) (claims : List (String × Int))
  deriving DecidableEq, Repr

/-- Modelled from third-party behaviour: `jose.jwt.decode(token, key,
algorithms=[alg])` yields the payload exactly when the token is well formed
and signed with that key under that algorithm, and raises `JWTError`
otherwise. -/
def jwtDecode (token : BearerToken) (key alg : String) :
    Option (List (String × Int)) :=
  match token with
  | .signed s a claims => if s == key && a == alg then some claims else none
  | _ => none

/-- Module-level constant `SECRET_KEY` of `security/dependencies.py`. -/
def SECRET_KEY : String := "YOUR_SECRET_KEY"

/-- Module-level constant `ALGORITHM` of `security/dependencies.py`. -/
def ALGORITHM : String := "HS256"

/-- Error raised by the security dependency (an `HTTPException` with status,
detail, and optional `WWW-Authenticate` header). -/
structure AuthError where
  statusCode : Nat
  detail : String
  wwwAuthenticate : Option String
  deriving DecidableEq, Repr

/-- The `credentials_exception` built inside `get_current_user`. -/
def credentialsException : AuthError :=
  { statusCode := 401, detail := "Could not validate credentials",
    wwwAuthenticate := some "Bearer" }

/-- Rejection issued by the OAuth2 bearer scheme itself when the header is
absent (FastAPI's `OAuth2PasswordBearer` with `auto_error=True`). -/
def missingTokenException : AuthError :=
  { statusCode := 401, detail := "Not authenticated",
    wwwAuthenticate := some "Bearer" }

/-- Embedding of the dependency `get_current_user`: decode the bearer token
with the module's hardcoded secret and algorithm, read the `sub` claim, load
the user by that id, and reject with the credentials exception when decoding
fails, the claim is absent, or the user is missing or inactive. -/
def get_current_user (db : AccountsDB) (token : BearerToken) :
    Except AuthError User :=
  match token with
  | .missing => .error missingTokenException
  | _ =>
    match jwtDecode token SECRET_KEY ALGORITHM with
    | none => .error credentialsException
    | some payload =>
      match getClaim payload "sub" with
      | none => .error credentialsException
      | some userId =>
        match db.users.find? (fun u => u.id == userId) with
        | none => .error credentialsException
        | some user =>
          if !user.isActive then .error credentialsException
          else .ok user

/-- Predicate for "raises 401 with header WWW-Authenticate: Bearer". -/
def isUnauthorizedBearer : Except AuthError User → Prop
  | .error e => e.statusCode = 401 ∧ e.wwwAuthenticate = some "Bearer"
  | .ok _ => False

instance (r : Except AuthError User) : Decidable (isUnauthorizedBearer r) := by
  unfold isUnauthorizedBearer
  cases r <;> infer_instance

/-- Row of the `movies` table joined with the names of its associated stars
and directors (the two associations the list query joins for search). -/
structure Movie where
  id : Int
  name : String
  year : Int
  time : Int
  imdb : Rat
  votes : Int
  price : Rat
  description : String
  starNames : List String
  directorNames : List String
  deriving DecidableEq, Repr

/-- Python truthiness of an `Optional[int]` query parameter: `None` and `0`
are both falsy, so the corresponding filter is skipped for either. -/
def pyTruthyInt : Option Int → Bool
  | none => false
  | some v => v != 0

/-- Python truthiness of an `Optional[float]` query parameter. -/
def pyTruthyRat : Option Rat → Bool
  | none => false
  | some v => v != 0

/-- Python truthiness of an `Optional[str]` query parameter (the empty string
is falsy). -/
def pyTruthyStr : Option String → Bool
  | none => false
  | some s => s != ""

/-- Character-list comparison of a needle against the leading segment of a
haystack. -/
def leadSegEq : List Char → List Char → Bool
  | [], _ => true
  | _ :: _, [] => false
  | a :: as, b :: bs => a == b && leadSegEq as bs

/-- Occurrence of a needle anywhere in a haystack (character lists). -/
def charsContain (needle : List Char) : List Char → Bool
  | [] => needle.isEmpty
  | c :: rest => leadSegEq needle (c :: rest) || charsContain needle rest

/-- Embedding of the SQL predicate `lower(column) LIKE :term` where `term` is
`f"%\x7bsearch.lower()\x7d%"`: case-insensitive substring containment. -/
def likeMatch (column searchLower : String) : Bool :=
  charsContain searchLower.toList column.toLower.toList

/-- Search disjunction of the list query: the movie's lowered name or
description, or one of its star or director names, contains the lowered
search term. -/
def searchMatches (searchLower : String) (m : Movie) : Bool :=
  likeMatch m.name searchLower || likeMatch m.description searchLower ||
  m.starNames.any (fun s => likeMatch s searchLower) ||
  m.directorNames.any (fun d => likeMatch d searchLower)

/-- The four values the `sort_by` query parameter admits
(`pattern="^(year|price|imdb|votes)$"`). -/
inductive SortBy where
  | byYear
  | byPrice
  | byImdb
  | byVotes
  deriving DecidableEq, Repr

/-- Column selected by `getattr(MovieModel, sort_by)`. -/
def sortKey : SortBy → Movie → Rat
  | .byYear, m => (m.year : Rat)
  | .byPrice, m => m.price
  | .byImdb, m => m.imdb
  | .byVotes, m => (m.votes : Rat)

/-- Insertion of a movie into a list kept in descending key order. -/
def insertDesc (key : Movie → Rat) (m : Movie) : List Movie → List Movie
  | [] => [m]
  | x :: xs =>
    if key x ≤ key m then m :: x :: xs else x :: insertDesc key m xs

/-- Embedding of `ORDER BY column DESC` as a deterministic descending sort
(ties keep an arbitrary but fixed order, as the SQL leaves them unspecified). -/
def sortDesc (key : Movie → Rat) : List Movie → List Movie
  | [] => []
  | x :: xs => insertDesc key x (sortDesc key xs)

/-- Filtered and sorted (but unpaginated) movie query built by `get_movies`:
year equality, imdb lower bound and price upper bound are each applied only
when the parameter is truthy; a truthy search term keeps the movies matched by
the joined case-insensitive search (the `DISTINCT` collapses the join
duplicates back to one row per movie); the result is sorted descending on the
requested column. -/
def moviesQuery (movies : List Movie) (year : Option Int)
    (minImdb maxPrice : Option Rat) (search : Option String)
    (sortBy : SortBy) : List Movie :=
  let afterYear :=
    if pyTruthyInt year then
      movies.filter (fun m => m.year == year.getD 0)
    else movies
  let afterImdb :=
    if pyTruthyRat minImdb then
      afterYear.filter (fun m => decide (minImdb.getD 0 ≤ m.imdb))
    else afterYear
  let afterPrice :=
    if pyTruthyRat maxPrice then
      afterImdb.filter (fun m => decide (m.price ≤ maxPrice.getD 0))
    else afterImdb
  let afterSearch :=
    if pyTruthyStr search then
      afterPrice.filter (searchMatches (search.getD "").toLower)
    else afterPrice
  sortDesc (sortKey sortBy) afterSearch

/-- Pagination envelope returned by the list endpoints
(`MovieListResponseSchema`). -/
structure MovieListResponse where
  items : List Movie
  total : Nat
  page : Nat
  pages : Nat
  deriving DecidableEq, Repr

/-- Integer ceiling division, the exact value of `math.ceil(total / size)` for
the integer operands the handler passes. -/
def ceilDiv (a b : Nat) : Nat := (a + b - 1) / b

/-- Embedding of `GET /movies/` (`get_movies`): build the filtered sorted
query, count it before pagination, compute `pages = ceil(total / size) if
total else 1`, and return the slice at offset `(page - 1) * size` limited to
`size` rows. -/
def get_movies (movies : List Movie) (page size : Nat) (year : Option Int)
    (minImdb maxPrice : Option Rat) (search : Option String)
    (sortBy : SortBy) : MovieListResponse :=
  let q := moviesQuery movies year minImdb maxPrice search sortBy
  let total := q.length
  let pages := if total != 0 then ceilDiv total size else 1
  { items := (q.drop ((page - 1) * size)).take size,
    total := total, page := page, pages := pages }

/-- State touched by the favorites endpoints: the movies table and the
`user_favorites` association rows `(user_id, movie_id)`. -/
structure FavoritesState where
  movies : List Movie
  favorites : List (Int × Int)
  deriving DecidableEq, Repr

/-- Embedding of `POST /movies/\x7bmovie_id\x7d/favorite/`
(`add_to_favorites`): 404 when the movie id does not exist; otherwise append
the association row only when it is not already present, and report success
either way. -/
def add_to_favorites (st : FavoritesState) (userId movieId : Int) :
    FavoritesState × Response String :=
  match st.movies.find? (fun m => m.id == movieId) with
  | none => (st, .error 404 "Movie not found")
  | some movie =>
    if st.favorites.contains (userId, movie.id) then
      (st, .ok "Added to favorites")
    else
      ({ st with favorites := st.favorites ++ [(userId, movie.id)] },
       .ok "Added to favorites")

/-- Embedding of `DELETE /movies/\x7bmovie_id\x7d/favorite/`
(`remove_from_favorites`): 404 when the movie id does not exist; otherwise
delete the association row only when it is present, and report success either
way. -/
def remove_from_favorites (st : FavoritesState) (userId movieId : Int) :
    FavoritesState × Response String :=
  match st.movies.find? (fun m => m.id == movieId) with
  | none => (st, .error 404 "Movie not found")
  | some movie =>
    if st.favorites.contains (userId, movie.id) then
      ({ st with favorites :=
           st.favorites.filter (fun p => p ≠ (userId, movie.id)) },
       .ok "Removed from favorites")
    else
      (st, .ok "Removed from favorites")

/-- Sample catalog row used to instantiate the theorems below. -/
def movieA : Movie :=
  { id := 1, name := "Alpha", year := 2000, time := 90, imdb := 7,
    votes := 100, price := 5, description := "first film",
    starNames := ["Star One"], directorNames := ["Dir One"] }

/-- Sample catalog row used to instantiate the theorems below. -/
def movieB : Movie :=
  { id := 2, name := "Beta", year := 2010, time := 100, imdb := 8,
    votes := 200, price := 4, description := "second film",
    starNames := ["Star Two"], directorNames := ["Dir Two"] }

/-- Sample catalog row used to instantiate the theorems below. -/
def movieC : Movie :=
  { id := 3, name := "Gamma", year := 2020, time := 110, imdb := 6,
    votes := 300, price := 3, description := "third film",
    starNames := [], directorNames := [] }

/-- Sample pending-activation account. -/
def sampleInactiveUser : User :=
  { id := 1, email := "user@example.com", hashedPassword := "Secret123",
    isActive := false, groupId := 1 }

/-- Sample activated account. -/
def sampleActiveUser : User :=
  { id := 2, email := "active@example.com", hashedPassword := "Secret123",
    isActive := true, groupId := 1 }

/-- Sample activation-token row for the inactive account, stored naive and
already expired at instant 100. -/
def sampleActivationToken : TokenRow :=
  { id := 10, userId := 1, token := "act-tok", expiresAt := .naive 50 }

/-- Sample persisted refresh-token row for the active account, expiring at
instant 1000. -/
def sampleRefreshToken : TokenRow :=
  { id := 20, userId := 2, token := "rt-1", expiresAt := .aware 1000 }

/-- Sample account database instantiating the account-lifecycle theorems. -/
def sampleDB : AccountsDB :=
  { users := [sampleInactiveUser, sampleActiveUser],
    activationTokens := [sampleActivationToken],
    passwordResetTokens := [],
    refreshTokens := [sampleRefreshToken] }

/-- Sample favorites state with one movie and no favorited rows. -/
def sampleFavorites : FavoritesState :=
  { movies := [movieA], favorites := [] }

/-!
Helper lemmas shared by the claim theorems.
-/

theorem countP_add_length_filter_not {α : Type} (l : List α) (p : α → Bool) :
    l.countP p + (l.filter (fun a => !p a)).length = l.length := by
  induction l with
  | nil => simp
  | cons a as ih =>
    by_cases h : p a = true <;>
      simp [List.countP_cons, List.filter_cons, h] <;> omega

theorem countP_eq_zero_of_forall_not {α : Type} (l : List α) (p : α → Bool)
    (h : ∀ a ∈ l, ¬ p a = true) : l.countP p = 0 := by
  induction l with
  | nil => simp
  | cons a as ih =>
    have ha := h a (List.mem_cons_self a as)
    simp [List.countP_cons, ha, ih fun x hx => h x (List.mem_cons_of_mem a hx)]

theorem le_ceilDiv_mul (a b : Nat) (hb : 0 < b) : a ≤ ceilDiv a b * b := by
  unfold ceilDiv
  have h1 := Nat.div_add_mod (a + b - 1) b
  have h2 := Nat.mod_lt (a + b - 1) hb
  rw [Nat.mul_comm]
  generalize b * ((a + b - 1) / b) = P at h1 ⊢
  generalize (a + b - 1) % b = r at h1 h2
  omega

theorem ceilDiv_pred_mul_lt (a b : Nat) (ha : 0 < a) (hb : 0 < b) :
    (ceilDiv a b - 1) * b < a := by
  unfold ceilDiv
  have h1 := Nat.div_add_mod (a + b - 1) b
  have h2 := Nat.mod_lt (a + b - 1) hb
  rw [Nat.sub_mul, one_mul, Nat.mul_comm]
  generalize b * ((a + b - 1) / b) = P at h1 ⊢
  generalize (a + b - 1) % b = r at h1 h2
  omega

/-- C3: for every database state and every combination of the remaining
parameters, calling the movie-list operation with `year = 0` (or
`min_imdb = 0`, or `max_price = 0`) returns exactly the same response as
calling it with that filter absent: falsy numeric filter values apply no
filtering condition. -/
theorem falsy_numeric_filters_not_applied (movies : List Movie)
    (page size : Nat) (year : Option Int) (minImdb maxPrice : Option Rat)
    (search : Option String) (sortBy : SortBy) :
    get_movies movies page size (some 0) minImdb maxPrice search sortBy
      = get_movies movies page size none minImdb maxPrice search sortBy
    ∧ get_movies movies page size year (some 0) maxPrice search sortBy
      = get_movies movies page size year none maxPrice search sortBy
    ∧ get_movies movies page size year minImdb (some 0) search sortBy
      = get_movies movies page size year minImdb none search sortBy := by
  refine ⟨?_, ?_, ?_⟩ <;> rfl

/-- C5: for every movie-list request the envelope's total is the row count of
the filtered but unpaginated query; pages is the ceiling of total over size
when the total is positive (characterized as the least page count covering
all rows) and 1 when the total is zero; and the items are at most `size` rows
starting at offset `(page - 1) * size` of the sorted filtered query. -/
theorem get_movies_pagination_envelope (movies : List Movie)
    (page size : Nat) (year : Option Int) (minImdb maxPrice : Option Rat)
    (search : Option String) (sortBy : SortBy) (hsize : 0 < size) :
    (get_movies movies page size year minImdb maxPrice search sortBy).total
      = (moviesQuery movies year minImdb maxPrice search sortBy).length
    ∧ (0 < (get_movies movies page size year minImdb maxPrice search sortBy).total →
        (get_movies movies page size year minImdb maxPrice search sortBy).total
          ≤ (get_movies movies page size year minImdb maxPrice search sortBy).pages
              * size
        ∧ ((get_movies movies page size year minImdb maxPrice search sortBy).pages
              - 1) * size
            < (get_movies movies page size year minImdb maxPrice search sortBy).total)
    ∧ ((get_movies movies page size year minImdb maxPrice search sortBy).total = 0 →
        (get_movies movies page size year minImdb maxPrice search sortBy).pages = 1)
    ∧ (get_movies movies page size year minImdb maxPrice search sortBy).items
        = ((moviesQuery movies year minImdb maxPrice search sortBy).drop
            ((page - 1) * size)).take size
    ∧ (get_movies movies page size year minImdb maxPrice search sortBy).items.length
        ≤ size := by
  refine ⟨rfl, ?_, ?_, rfl, ?_⟩
  · intro hpos
    simp only [get_movies] at hpos ⊢
    have hne : (moviesQuery movies year minImdb maxPrice search sortBy).length ≠ 0 :=
      Nat.pos_iff_ne_zero.mp hpos
    simp only [ne_eq, hne, not_false_eq_true, bne_iff_ne, if_true, if_pos]
    exact ⟨le_ceilDiv_mul _ _ hsize,
           ceilDiv_pred_mul_lt _ _ (Nat.pos_of_ne_zero hne) hsize⟩
  · intro h0
    simp only [get_movies] at h0 ⊢
    simp [h0]
  · simp only [get_movies, List.length_take]
    omega

/-- Witness for C5 at a concrete catalog: three movies, page 2 of size 1. -/
theorem get_movies_pagination_envelope_witness :
    (0:Nat) < 1
    ∧ (get_movies [movieA, movieB, movieC] 2 1 none none none none
          SortBy.byYear).total
        ≤ (get_movies [movieA, movieB, movieC] 2 1 none none none none
            SortBy.byYear).pages * 1 :=
  ⟨by decide,
   ((get_movies_pagination_envelope [movieA, movieB, movieC] 2 1 none none
       none none SortBy.byYear (by decide)).2.1 (by decide)).1⟩

/-- C6: one run of the cleanup task deletes exactly the token rows (in all
three tables) whose expiry is at or before the current UTC instant, leaves
every later-expiring row in place, and returns the total number of rows
deleted across the three tables; a second run over the cleaned state at any
instant at which no remaining row has expired returns 0. -/
theorem cleanup_expired_tokens_exact (db : AccountsDB) (now : Int) :
    (∀ t, t ∈ (cleanup_expired_tokens db now).1.activationTokens ↔
        t ∈ db.activationTokens ∧ ¬ normalizeToUtc t.expiresAt ≤ now)
    ∧ (∀ t, t ∈ (cleanup_expired_tokens db now).1.passwordResetTokens ↔
        t ∈ db.passwordResetTokens ∧ ¬ normalizeToUtc t.expiresAt ≤ now)
    ∧ (∀ t, t ∈ (cleanup_expired_tokens db now).1.refreshTokens ↔
        t ∈ db.refreshTokens ∧ ¬ normalizeToUtc t.expiresAt ≤ now)
    ∧ (cleanup_expired_tokens db now).2
        = (db.activationTokens.length
            - (cleanup_expired_tokens db now).1.activationTokens.length)
          + (db.passwordResetTokens.length
            - (cleanup_expired_tokens db now).1.passwordResetTokens.length)
          + (db.refreshTokens.length
            - (cleanup_expired_tokens db now).1.refreshTokens.length)
    ∧ (∀ now',
        ((∀ t ∈ (cleanup_expired_tokens db now).1.activationTokens,
            ¬ normalizeToUtc t.expiresAt ≤ now')
          ∧ (∀ t ∈ (cleanup_expired_tokens db now).1.passwordResetTokens,
            ¬ normalizeToUtc t.expiresAt ≤ now')
          ∧ (∀ t ∈ (cleanup_expired_tokens db now).1.refreshTokens,
            ¬ normalizeToUtc t.expiresAt ≤ now')) →
        (cleanup_expired_tokens (cleanup_expired_tokens db now).1 now').2 = 0) := by
  refine ⟨?_, ?_, ?_, ?_, ?_⟩
  · intro t
    simp [cleanup_expired_tokens, List.mem_filter, isExpiredAt]
  · intro t
    simp [cleanup_expired_tokens, List.mem_filter, isExpiredAt]
  · intro t
    simp [cleanup_expired_tokens, List.mem_filter, isExpiredAt]
  · have h1 := countP_add_length_filter_not db.activationTokens (isExpiredAt now)
    have h2 := countP_add_length_filter_not db.passwordResetTokens (isExpiredAt now)
    have h3 := countP_add_length_filter_not db.refreshTokens (isExpiredAt now)
    simp only [cleanup_expired_tokens]
    omega
  · intro now' h
    simp only [cleanup_expired_tokens]
    rw [countP_eq_zero_of_forall_not _ _ ?_, countP_eq_zero_of_forall_not _ _ ?_,
        countP_eq_zero_of_forall_not _ _ ?_]
    · intro t ht
      have := h.2.2 t ht
      simpa [isExpiredAt] using this
    · intro t ht
      have := h.2.1 t ht
      simpa [isExpiredAt] using this
    · intro t ht
      have := h.1 t ht
      simpa [isExpiredAt] using this

/-- Witness for C6: cleaning the sample database at instant 100 removes the
expired activation token, and a second run at 100 deletes nothing. -/
theorem cleanup_expired_tokens_exact_witness :
    ((∀ t ∈ (cleanup_expired_tokens sampleDB 100).1.activationTokens,
        ¬ normalizeToUtc t.expiresAt ≤ (100:Int))
      ∧ (∀ t ∈ (cleanup_expired_tokens sampleDB 100).1.passwordResetTokens,
        ¬ normalizeToUtc t.expiresAt ≤ (100:Int))
      ∧ (∀ t ∈ (cleanup_expired_tokens sampleDB 100).1.refreshTokens,
        ¬ normalizeToUtc t.expiresAt ≤ (100:Int)))
    ∧ (cleanup_expired_tokens (cleanup_expired_tokens sampleDB 100).1 100).2 = 0 :=
  ⟨by decide,
   (cleanup_expired_tokens_exact sampleDB 100).2.2.2.2 100 (by decide)⟩

/-- C4: activating an existing inactive user with a matching but expired
activation token (naive expiries read as UTC) deletes that token row and
fails with 400 carrying the generic invalid-or-expired message; afterwards no
row with that token id exists. -/
theorem activate_expired_token_deleted (db : AccountsDB) (now : Int)
    (email token : String) (u : User) (tr : TokenRow)
    (hu : db.users.find? (fun x => x.email == email) = some u)
    (hin : u.isActive = false)
    (ht : db.activationTokens.find? (fun t => t.userId == u.id) = some tr)
    (htok : tr.token = token)
    (hexp : normalizeToUtc tr.expiresAt ≤ now) :
    (activate_user db now email token).2
        = .error 400 "Invalid or expired activation token."
    ∧ (activate_user db now email token).1
        = { db with activationTokens :=
              db.activationTokens.filter (fun t => t.id ≠ tr.id) }
    ∧ (∀ t ∈ (activate_user db now email token).1.activationTokens,
        t.id ≠ tr.id) := by
  have hrun : activate_user db now email token
      = ({ db with activationTokens :=
             db.activationTokens.filter (fun t => t.id ≠ tr.id) },
         .error 400 "Invalid or expired activation token.") := by
    simp [activate_user, hu, ht, hin, htok, hexp]
  refine ⟨by rw [hrun], by rw [hrun], ?_⟩
  rw [hrun]
  intro t htmem
  simpa using (List.mem_filter.mp htmem).2

/-- Witness for C4: the sample activation token stored naive at clock 50 is
expired at instant 100 and gets deleted. -/
theorem activate_expired_token_deleted_witness :
    sampleDB.users.find? (fun x => x.email == "user@example.com")
        = some sampleInactiveUser
    ∧ sampleInactiveUser.isActive = false
    ∧ sampleDB.activationTokens.find?
        (fun t => t.userId == sampleInactiveUser.id) = some sampleActivationToken
    ∧ sampleActivationToken.token = "act-tok"
    ∧ normalizeToUtc sampleActivationToken.expiresAt ≤ (100:Int)
    ∧ (activate_user sampleDB 100 "user@example.com" "act-tok").2
        = .error 400 "Invalid or expired activation token."
    ∧ (∀ t ∈ (activate_user sampleDB 100 "user@example.com"
          "act-tok").1.activationTokens, t.id ≠ sampleActivationToken.id) :=
  ⟨by decide, rfl, by decide, rfl, by decide,
   (activate_expired_token_deleted sampleDB 100 "user@example.com" "act-tok"
     sampleInactiveUser sampleActivationToken (by decide) rfl (by decide) rfl
     (by decide)).1,
   (activate_expired_token_deleted sampleDB 100 "user@example.com" "act-tok"
     sampleInactiveUser sampleActivationToken (by decide) rfl (by decide) rfl
     (by decide)).2.2⟩

/-- C10: activating an existing inactive user whose stored activation token
differs from the supplied string fails with 400 and leaves the database
unchanged: the token row still exists and the user remains inactive. -/
theorem activate_token_mismatch_unchanged (db : AccountsDB) (now : Int)
    (email token : String) (u : User) (tr : TokenRow)
    (hu : db.users.find? (fun x => x.email == email) = some u)
    (hin : u.isActive = false)
    (ht : db.activationTokens.find? (fun t => t.userId == u.id) = some tr)
    (hne : tr.token ≠ token) :
    activate_user db now email token
        = (db, .error 400 "Invalid or expired activation token.")
    ∧ tr ∈ (activate_user db now email token).1.activationTokens
    ∧ u ∈ (activate_user db now email token).1.users
    ∧ u.isActive = false := by
  have hrun : activate_user db now email token
      = (db, .error 400 "Invalid or expired activation token.") := by
    simp [activate_user, hu, ht, hin, hne]
  refine ⟨hrun, ?_, ?_, hin⟩
  · rw [hrun]
    exact List.mem_of_find?_eq_some ht
  · rw [hrun]
    exact List.mem_of_find?_eq_some hu

/-- Witness for C10: a wrong token string leaves the sample database intact. -/
theorem activate_token_mismatch_unchanged_witness :
    sampleDB.users.find? (fun x => x.email == "user@example.com")
        = some sampleInactiveUser
    ∧ sampleInactiveUser.isActive = false
    ∧ sampleDB.activationTokens.find?
        (fun t => t.userId == sampleInactiveUser.id) = some sampleActivationToken
    ∧ sampleActivationToken.token ≠ "wrong-tok"
    ∧ activate_user sampleDB 100 "user@example.com" "wrong-tok"
        = (sampleDB, .error 400 "Invalid or expired activation token.")
    ∧ sampleActivationToken
        ∈ (activate_user sampleDB 100 "user@example.com"
            "wrong-tok").1.activationTokens :=
  ⟨by decide, rfl, by decide, by decide,
   (activate_token_mismatch_unchanged sampleDB 100 "user@example.com"
     "wrong-tok" sampleInactiveUser sampleActivationToken (by decide) rfl
     (by decide) (by decide)).1,
   (activate_token_mismatch_unchanged sampleDB 100 "user@example.com"
     "wrong-tok" sampleInactiveUser sampleActivationToken (by decide) rfl
     (by decide) (by decide)).2.1⟩

/-- C2: the login endpoint answers 401 with the identical detail text both
for an email not present in the users table and for a present email whose
password fails verification; a present email with a verifying password on an
inactive user gets 403. -/
theorem login_error_paths (db : AccountsDB) (now loginTimeDays nextRowId : Int)
    (email password : String) :
    (db.users.find? (fun u => u.email == email) = none →
      (login_user db now loginTimeDays nextRowId email password).2
        = .error 401 "Invalid email or password.")
    ∧ (∀ u, db.users.find? (fun x => x.email == email) = some u →
        u.verify_password password = false →
        (login_user db now loginTimeDays nextRowId email password).2
          = .error 401 "Invalid email or password.")
    ∧ (∀ u, db.users.find? (fun x => x.email == email) = some u →
        u.verify_password password = true →
        u.isActive = false →
        (login_user db now loginTimeDays nextRowId email password).2
          = .error 403 "User account is not activated.") := by
  refine ⟨?_, ?_, ?_⟩
  · intro h
    simp [login_user, h]
  · intro u hu hpw
    simp [login_user, hu, hpw]
  · intro u hu hpw hact
    simp [login_user, hu, hpw, hact]

/-- Witness for C2: an unknown email and a wrong password both produce the
same 401 detail on the sample database; correct credentials on the inactive
sample user produce 403. -/
theorem login_error_paths_witness :
    sampleDB.users.find? (fun u => u.email == "ghost@example.com") = none
    ∧ (login_user sampleDB 0 7 99 "ghost@example.com" "whatever").2
        = .error 401 "Invalid email or password."
    ∧ sampleActiveUser.verify_password "bad-password" = false
    ∧ (login_user sampleDB 0 7 99 "active@example.com" "bad-password").2
        = .error 401 "Invalid email or password."
    ∧ sampleInactiveUser.verify_password "Secret123" = true
    ∧ (login_user sampleDB 0 7 99 "user@example.com" "Secret123").2
        = .error 403 "User account is not activated." :=
  ⟨by decide,
   (login_error_paths sampleDB 0 7 99 "ghost@example.com" "whatever").1
     (by decide),
   by decide,
   (login_error_paths sampleDB 0 7 99 "active@example.com" "bad-password").2.1
     sampleActiveUser (by decide) (by decide),
   by decide,
   (login_error_paths sampleDB 0 7 99 "user@example.com" "Secret123").2.2
     sampleInactiveUser (by decide) (by decide) rfl⟩

/-- C7: logout always returns 200 with the message "Logged out."; when
structural verification of the refresh token fails the database is untouched,
and when it passes every refresh-token row matching the supplied value is
deleted (a no-op when none matches). -/
theorem logout_always_succeeds (db : AccountsDB) (refreshToken : String)
    (verifyOk : Bool) :
    (logout_user db refreshToken verifyOk).2 = .ok "Logged out."
    ∧ (verifyOk = false → (logout_user db refreshToken verifyOk).1 = db)
    ∧ (verifyOk = true → (logout_user db refreshToken verifyOk).1
        = { db with refreshTokens :=
              db.refreshTokens.filter (fun t => t.token ≠ refreshToken) })
    ∧ (verifyOk = true →
        ∀ t ∈ (logout_user db refreshToken verifyOk).1.refreshTokens,
          t.token ≠ refreshToken)
    ∧ (verifyOk = true → (∀ t ∈ db.refreshTokens, t.token ≠ refreshToken) →
        (logout_user db refreshToken verifyOk).1 = db) := by
  refine ⟨?_, ?_, ?_, ?_, ?_⟩
  · cases verifyOk <;> simp [logout_user]
  · intro h
    simp [logout_user, h]
  · intro h
    simp [logout_user, h]
  · intro h t htmem
    simp only [logout_user, h] at htmem
    simp at htmem
    exact htmem.2
  · intro h hnone
    have hkeep : db.refreshTokens.filter (fun t => !decide (t.token = refreshToken))
        = db.refreshTokens := by
      rw [List.filter_eq_self]
      intro t htmem
      simpa using hnone t htmem
    simp [logout_user, h, hkeep]

/-- Witness for C7: a failed verification leaves the sample database
unchanged, a passing verification deletes the matching row, and both report
the same success message. -/
theorem logout_always_succeeds_witness :
    (logout_user sampleDB "rt-1" false).1 = sampleDB
    ∧ (logout_user sampleDB "rt-1" false).2 = .ok "Logged out."
    ∧ (logout_user sampleDB "rt-1" true).2 = .ok "Logged out."
    ∧ (∀ t ∈ (logout_user sampleDB "rt-1" true).1.refreshTokens,
        t.token ≠ "rt-1") :=
  ⟨(logout_always_succeeds sampleDB "rt-1" false).2.1 rfl,
   (logout_always_succeeds sampleDB "rt-1" false).1,
   (logout_always_succeeds sampleDB "rt-1" true).1,
   (logout_always_succeeds sampleDB "rt-1" true).2.2.2.1 rfl⟩

/-- C1: with a refresh token that decodes successfully, matches a persisted
row, belongs to an existing active user, and has an unexpired persisted
expiry, the handler computes a fresh access token carrying the same user
identifier claim but never returns it: no response body with an access token
is produced.  The claimed 200-with-body behaviour is the defect the spec
flags for the rewrite. -/
theorem refresh_access_token_returns_no_body (db : AccountsDB) (now : Int)
    (tokenStr : String) (claims : List (String × Int)) (uid : Int) (u : User)
    (rt : TokenRow)
    (hclaim : getClaim claims "user_id" = some uid)
    (hrt : db.refreshTokens.find? (fun t => t.token == tokenStr) = some rt)
    (hu : db.users.find? (fun x => x.id == uid) = some u)
    (hact : u.isActive = true)
    (hexp : ¬ normalizeToUtc rt.expiresAt ≤ now) :
    refresh_access_token db now tokenStr (.ok claims)
      = (db, .noBodyReturned (create_access_token u.id))
    ∧ ∀ body, (refresh_access_token db now tokenStr (.ok claims)).2
        ≠ RefreshOutcome.ok body := by
  have hrun : refresh_access_token db now tokenStr (.ok claims)
      = (db, .noBodyReturned (create_access_token u.id)) := by
    simp [refresh_access_token, hclaim, hrt, hu, hact, hexp]
  refine ⟨hrun, ?_⟩
  intro body
  rw [hrun]
  simp

/-- Witness for C1 at the failing input: a fully valid refresh request on the
sample database yields no response body. -/
theorem refresh_access_token_returns_no_body_witness :
    getClaim [("user_id", 2)] "user_id" = some 2
    ∧ sampleDB.refreshTokens.find? (fun t => t.token == "rt-1")
        = some sampleRefreshToken
    ∧ sampleDB.users.find? (fun x => x.id == (2:Int)) = some sampleActiveUser
    ∧ sampleActiveUser.isActive = true
    ∧ ¬ normalizeToUtc sampleRefreshToken.expiresAt ≤ (500:Int)
    ∧ refresh_access_token sampleDB 500 "rt-1" (.ok [("user_id", 2)])
        = (sampleDB, .noBodyReturned (create_access_token sampleActiveUser.id))
    ∧ (∀ body, (refresh_access_token sampleDB 500 "rt-1"
          (.ok [("user_id", 2)])).2 ≠ RefreshOutcome.ok body) :=
  ⟨by decide, by decide, by decide, rfl, by decide,
   (refresh_access_token_returns_no_body sampleDB 500 "rt-1" [("user_id", 2)]
     2 sampleActiveUser sampleRefreshToken (by decide) (by decide) (by decide)
     rfl (by decide)).1,
   (refresh_access_token_returns_no_body sampleDB 500 "rt-1" [("user_id", 2)]
     2 sampleActiveUser sampleRefreshToken (by decide) (by decide) (by decide)
     rfl (by decide)).2⟩

/-- C8: for an existing movie, adding it to favorites twice in succession
leaves exactly one association row for that user-movie pair (assuming the
composite primary key held before, i.e. at most one row initially) and both
calls report success; removing a movie the user has not favorited reports
success and leaves the association rows untouched. -/
theorem favorites_add_idempotent_remove_noop (st : FavoritesState)
    (userId movieId : Int) (m : Movie)
    (hm : st.movies.find? (fun x => x.id == movieId) = some m) :
    (st.favorites.countP (fun p => p == (userId, m.id)) ≤ 1 →
      ((add_to_favorites (add_to_favorites st userId movieId).1
          userId movieId).1.favorites.countP (fun p => p == (userId, m.id)) = 1
        ∧ (add_to_favorites st userId movieId).2 = .ok "Added to favorites"
        ∧ (add_to_favorites (add_to_favorites st userId movieId).1
            userId movieId).2 = .ok "Added to favorites"))
    ∧ ((userId, m.id) ∉ st.favorites →
        remove_from_favorites st userId movieId
          = (st, .ok "Removed from favorites")) := by
  refine ⟨?_, ?_⟩
  · intro hcount
    by_cases hc : st.favorites.contains (userId, m.id) = true
    · have h1 : add_to_favorites st userId movieId = (st, .ok "Added to favorites") := by
        simp only [add_to_favorites, hm]
        rw [if_pos hc]
      have hpos : 0 < st.favorites.countP (fun p => p == (userId, m.id)) := by
        rw [List.countP_pos_iff]
        have hmem : (userId, m.id) ∈ st.favorites := by
          simpa using hc
        exact ⟨(userId, m.id), hmem, by simp⟩
      refine ⟨?_, by simp [h1], ?_⟩
      · rw [h1]
        show (add_to_favorites st userId movieId).1.favorites.countP
          (fun p => p == (userId, m.id)) = 1
        rw [h1]
        show st.favorites.countP (fun p => p == (userId, m.id)) = 1
        omega
      · rw [h1]
        show (add_to_favorites st userId movieId).2 = .ok "Added to favorites"
        rw [h1]
    · have h1 : add_to_favorites st userId movieId
          = ({ st with favorites := st.favorites ++ [(userId, m.id)] },
             .ok "Added to favorites") := by
        simp only [add_to_favorites, hm]
        rw [if_neg hc]
      have hzero : st.favorites.countP (fun p => p == (userId, m.id)) = 0 := by
        apply countP_eq_zero_of_forall_not
        intro a ha hbeq
        apply hc
        have hax : a = (userId, m.id) := by simpa using hbeq
        subst hax
        simpa using ha
      have hc2 : (st.favorites ++ [(userId, m.id)]).contains (userId, m.id) = true := by
        simp
      have h2 : add_to_favorites
            { st with favorites := st.favorites ++ [(userId, m.id)] } userId movieId
          = ({ st with favorites := st.favorites ++ [(userId, m.id)] },
             .ok "Added to favorites") := by
        simp only [add_to_favorites, hm]
        rw [if_pos hc2]
      refine ⟨?_, by simp [h1], ?_⟩
      · rw [h1]
        show (add_to_favorites
            { st with favorites := st.favorites ++ [(userId, m.id)] }
            userId movieId).1.favorites.countP (fun p => p == (userId, m.id)) = 1
        rw [h2]
        show (st.favorites ++ [(userId, m.id)]).countP
          (fun p => p == (userId, m.id)) = 1
        simp [List.countP_append, hzero]
      · rw [h1]
        show (add_to_favorites
            { st with favorites := st.favorites ++ [(userId, m.id)] }
            userId movieId).2 = .ok "Added to favorites"
        rw [h2]
  · intro hnot
    simp only [remove_from_favorites, hm]
    rw [if_neg (by simpa using hnot)]

/-- Witness for C8: double-add on the empty sample favorites leaves one row,
and removing a never-favorited movie changes nothing. -/
theorem favorites_add_idempotent_remove_noop_witness :
    sampleFavorites.movies.find? (fun x => x.id == (1:Int)) = some movieA
    ∧ sampleFavorites.favorites.countP
        (fun p => p == ((7:Int), movieA.id)) ≤ 1
    ∧ (add_to_favorites (add_to_favorites sampleFavorites 7 1).1
        7 1).1.favorites.countP (fun p => p == ((7:Int), movieA.id)) = 1
    ∧ (add_to_favorites sampleFavorites 7 1).2 = .ok "Added to favorites"
    ∧ (add_to_favorites (add_to_favorites sampleFavorites 7 1).1 7 1).2
        = .ok "Added to favorites"
    ∧ ((7:Int), movieA.id) ∉ sampleFavorites.favorites
    ∧ remove_from_favorites sampleFavorites 7 1
        = (sampleFavorites, .ok "Removed from favorites") :=
  ⟨by decide, by decide,
   ((favorites_add_idempotent_remove_noop sampleFavorites 7 1 movieA
       (by decide)).1 (by decide)).1,
   ((favorites_add_idempotent_remove_noop sampleFavorites 7 1 movieA
       (by decide)).1 (by decide)).2.1,
   ((favorites_add_idempotent_remove_noop sampleFavorites 7 1 movieA
       (by decide)).1 (by decide)).2.2,
   by decide,
   (favorites_add_idempotent_remove_noop sampleFavorites 7 1 movieA
       (by decide)).2 (by decide)⟩

/-- C9: the bearer-auth dependency rejects with 401 and header
WWW-Authenticate: Bearer exactly when the request lacks a token signed with
the dependency's hardcoded secret and algorithm whose payload carries a `sub`
claim resolving to an existing active user (this negation covers the missing,
malformed, wrongly-signed, claim-less, unknown-user and inactive-user cases);
in every other case it returns the loaded user. -/
theorem get_current_user_characterization (db : AccountsDB)
    (token : BearerToken) :
    (isUnauthorizedBearer (get_current_user db token) ↔
      ¬ ∃ claims uid u, token = .signed SECRET_KEY ALGORITHM claims
          ∧ getClaim claims "sub" = some uid
          ∧ db.users.find? (fun x => x.id == uid) = some u
          ∧ u.isActive = true)
    ∧ (∀ claims uid u,
        token = .signed SECRET_KEY ALGORITHM claims →
        getClaim claims "sub" = some uid →
        db.users.find? (fun x => x.id == uid) = some u →
        u.isActive = true →
        get_current_user db token = .ok u) := by
  constructor
  · cases token with
    | missing =>
      simp [get_current_user, isUnauthorizedBearer, missingTokenException]
    | malformed raw =>
      simp [get_current_user, jwtDecode, isUnauthorizedBearer, credentialsException]
    | signed s a claims =>
      by_cases hs : s = SECRET_KEY
      · by_cases ha : a = ALGORITHM
        · subst hs
          subst ha
          cases hclaim : getClaim claims "sub" with
          | none =>
            simp [get_current_user, jwtDecode, isUnauthorizedBearer,
              credentialsException, hclaim]
          | some uid =>
            cases hfind : db.users.find? (fun x => x.id == uid) with
            | none =>
              simp [get_current_user, jwtDecode, isUnauthorizedBearer,
                credentialsException, hclaim, hfind]
            | some u =>
              by_cases hact : u.isActive = true
              · simp [get_current_user, jwtDecode, isUnauthorizedBearer,
                  hclaim, hfind, hact]
              · simp [get_current_user, jwtDecode, isUnauthorizedBearer,
                  credentialsException, hclaim, hfind, hact]
        · simp [get_current_user, jwtDecode, isUnauthorizedBearer,
            credentialsException, ha]
      · simp [get_current_user, jwtDecode, isUnauthorizedBearer,
          credentialsException, hs]
  · intro claims uid u htok hclaim hfind hact
    subst htok
    simp [get_current_user, jwtDecode, hclaim, hfind, hact]

/-- Witness for C9: a token signed with the dependency's secret and algorithm
whose `sub` claim is the active sample user's id yields that user. -/
theorem get_current_user_characterization_witness :
    getClaim [("sub", 2)] "sub" = some 2
    ∧ sampleDB.users.find? (fun x => x.id == (2:Int)) = some sampleActiveUser
    ∧ sampleActiveUser.isActive = true
    ∧ get_current_user sampleDB
        (.signed SECRET_KEY ALGORITHM [("sub", 2)]) = .ok sampleActiveUser :=
  ⟨by decide, by decide, rfl,
   (get_current_user_characterization sampleDB
     (.signed SECRET_KEY ALGORITHM [("sub", 2)])).2 [("sub", 2)] 2
     sampleActiveUser rfl (by decide) (by decide) rfl⟩

end OnlineCinema
